import Mathlib

/-!
Shallow embedding of the CircadianZone controller.

This file embeds the per-zone lighting controller of
`net.alistairs.circadian` (class `CircadianZone`) in Lean 4 and proves
properties of its operations.

JavaScript numbers are modelled as rationals (`ℚ`); `Math.round` is
modelled as `⌊x + 1/2⌋`, which matches JavaScript's round-half-up
semantics.  The device's mutable fields become a `ZoneState` record, and
each method becomes a function `ZoneState → … → ZoneState × List Effect`,
where the `Effect` list records, in order, the awaited side effects of the
method: capability writes (`setCapabilityValue`) and values-changed flow
triggers (`triggerValuesChangedFlow`).  The driver's `getPercentage()` is
an external input and is passed as an explicit `pct` argument to the
operations that may reach `refreshZone`.
-/

namespace Circadian

/-- JavaScript `Math.round`: round half toward positive infinity. -/
def jsRound (q : ℚ) : ℤ := ⌊q + 1/2⌋

/-- The 2-decimal rounding `Math.round(x * 100) / 100` used throughout
`updateFromPercentage`. -/
def round2 (q : ℚ) : ℚ := (jsRound (q * 100) : ℚ) / 100

/-- The mutable fields of a `CircadianZone` device. -/
structure ZoneState where
  mode : String
  sunsetTemp : ℚ
  noonTemp : ℚ
  minBrightness : ℚ
  maxBrightness : ℚ
  nightTemperature : ℚ
  nightBrightness : ℚ
  currentBrightness : ℚ
  currentTemperature : ℚ
  deriving Repr, DecidableEq

/-- One awaited side effect of a controller method: a numeric capability
write, the mode-capability write, or a values-changed flow trigger. -/
inductive Effect where
  | setCapNum (key : String) (value : ℚ)
  | setCapStr (key : String) (value : String)
  | valuesChanged (brightness temperature : ℚ)
  deriving Repr, DecidableEq

/-- The rounded brightness computed inside `updateFromPercentage`:
`Math.round(((percentage > 0) ? (brightnessDelta * percentage) + _minBrightness : _minBrightness) * 100) / 100`. -/
def adaptiveBrightness (s : ZoneState) (percentage : ℚ) : ℚ :=
  let brightnessDelta := s.maxBrightness - s.minBrightness
  round2 (if 0 < percentage then brightnessDelta * percentage + s.minBrightness
          else s.minBrightness)

/-- The rounded temperature computed inside `updateFromPercentage`:
`Math.round(((percentage > 0) ? calculatedTemperature : _sunsetTemp) * 100) / 100`
with `calculatedTemperature = (tempDelta * (1-percentage)) + _noonTemp`. -/
def adaptiveTemperature (s : ZoneState) (percentage : ℚ) : ℚ :=
  let tempDelta := s.sunsetTemp - s.noonTemp
  let calculatedTemperature := tempDelta * (1 - percentage) + s.noonTemp
  round2 (if 0 < percentage then calculatedTemperature else s.sunsetTemp)

/-- Method `updateFromPercentage(percentage)`.  Guarded on adaptive mode; each
axis is compared (after rounding) with the stored value and updated and
persisted only when it differs; one combined values-changed trigger fires
when either axis changed.  The field assignments keep the source's
conditional form: when the condition is false the field keeps its old
value, exactly as the skipped assignment does. -/
def updateFromPercentage (s : ZoneState) (percentage : ℚ) : ZoneState × List Effect :=
  if s.mode ≠ "adaptive" then (s, [])
  else
    let brightness := adaptiveBrightness s percentage
    let temperature := adaptiveTemperature s percentage
    let s2 : ZoneState :=
      { s with
        currentBrightness :=
          if brightness ≠ s.currentBrightness then brightness else s.currentBrightness,
        currentTemperature :=
          if temperature ≠ s.currentTemperature then temperature else s.currentTemperature }
    let effs :=
      (if brightness ≠ s.currentBrightness then [Effect.setCapNum "dim" brightness] else []) ++
      (if temperature ≠ s.currentTemperature then [Effect.setCapNum "light_temperature" temperature] else [])
    if brightness ≠ s.currentBrightness ∨ temperature ≠ s.currentTemperature then
      (s2, effs ++ [Effect.valuesChanged brightness temperature])
    else (s2, effs)

/-- Method `updateFromNightMode()`: if either stored value differs from the night
targets, set both to the night targets, persist both, and trigger the
values-changed flow; otherwise do nothing. -/
def updateFromNightMode (s : ZoneState) : ZoneState × List Effect :=
  if s.currentBrightness ≠ s.nightBrightness ∨ s.currentTemperature ≠ s.nightTemperature then
    ({ s with currentBrightness := s.nightBrightness,
              currentTemperature := s.nightTemperature },
     [Effect.setCapNum "dim" s.nightBrightness,
      Effect.setCapNum "light_temperature" s.nightTemperature,
      Effect.valuesChanged s.nightBrightness s.nightTemperature])
  else (s, [])

/-- Method `refreshZone()`: dispatch on the current mode.  The driver's
`getPercentage()` is the external input `pct`. -/
def refreshZone (s : ZoneState) (pct : ℚ) : ZoneState × List Effect :=
  if s.mode = "adaptive" then updateFromPercentage s pct
  else if s.mode = "night" then updateFromNightMode s
  else (s, [])

/-- Method `setMode(newMode)`: no-op when unchanged; otherwise store and persist
the new mode, then refresh the zone when the new mode is adaptive or
night. -/
def setMode (s : ZoneState) (newMode : String) (pct : ℚ) : ZoneState × List Effect :=
  if s.mode ≠ newMode then
    let s1 : ZoneState := { s with mode := newMode }
    if newMode = "adaptive" ∨ newMode = "night" then
      let r := refreshZone s1 pct
      (r.1, Effect.setCapStr "adaptive_mode" newMode :: r.2)
    else (s1, [Effect.setCapStr "adaptive_mode" newMode])
  else (s, [])

/-- Method `overrideCurrentBrightnessTemperature` taking optional new
brightness and temperature values.
An axis is provided when its value is `≥ 0` (the capability listeners pass
`-1` for the unset axis); a provided axis that differs from the stored
value is overwritten as given, without rounding.  If anything changed, the
mode is forced to manual (via `setMode`) and the values-changed flow fires
with the resulting stored values.  The source reads `_currentTemperature`
after the brightness branch, but that branch never writes it, so comparing
against `s.currentTemperature` is the same test. -/
def overrideCurrentBrightnessTemperature (s : ZoneState)
    (newBrightness newTemperature pct : ℚ) : ZoneState × List Effect :=
  let s2 : ZoneState :=
    { s with
      currentBrightness :=
        if 0 ≤ newBrightness ∧ s.currentBrightness ≠ newBrightness then newBrightness
        else s.currentBrightness,
      currentTemperature :=
        if 0 ≤ newTemperature ∧ s.currentTemperature ≠ newTemperature then newTemperature
        else s.currentTemperature }
  if (0 ≤ newBrightness ∧ s.currentBrightness ≠ newBrightness) ∨
     (0 ≤ newTemperature ∧ s.currentTemperature ≠ newTemperature) then
    let m := if s2.mode ≠ "manual" then setMode s2 "manual" pct else (s2, [])
    (m.1, m.2 ++ [Effect.valuesChanged m.1.currentBrightness m.1.currentTemperature])
  else (s2, [])

/-- The `newSettings` payload of an `onSettings` event. -/
structure NewSettings where
  max_brightness : ℚ
  min_brightness : ℚ
  night_brightness : ℚ
  night_temp : ℚ
  sunset_temp : ℚ
  noon_temp : ℚ
  deriving Repr, DecidableEq

/-- Method `onSettings(event)`: return the localized `temperature_error` message
when `!(newSettings.sunset_temp > newSettings.noon_temp)`, leaving the
state untouched; otherwise replace all six configuration fields
(percentage settings divided by 100) and refresh the zone.  The result is
the state after the call, the effects, and the returned message (`none`
models the `void` return). -/
def onSettings (s : ZoneState) (ns : NewSettings) (pct : ℚ) :
    ZoneState × List Effect × Option String :=
  if ¬ (ns.noon_temp < ns.sunset_temp) then (s, [], some "temperature_error")
  else
    let s1 : ZoneState :=
      { s with
        maxBrightness := ns.max_brightness / 100,
        minBrightness := ns.min_brightness / 100,
        noonTemp := ns.noon_temp / 100,
        sunsetTemp := ns.sunset_temp / 100,
        nightBrightness := ns.night_brightness / 100,
        nightTemperature := ns.night_temp / 100 }
    let r := refreshZone s1 pct
    (r.1, r.2, none)

/-- Whether an effect is a values-changed flow trigger. -/
def isValuesChanged : Effect → Bool
  | .valuesChanged _ _ => true
  | _ => false

/-- How many values-changed flow triggers an effect list contains. -/
def notifyCount (effs : List Effect) : ℕ := (effs.filter isValuesChanged).length

/-- The concrete configuration of the spec's scenario: min 10%, max 100%,
noon 40%, sunset 100%, in adaptive mode. -/
def demoZone : ZoneState :=
  { mode := "adaptive", sunsetTemp := 1, noonTemp := 2/5,
    minBrightness := 1/10, maxBrightness := 1,
    nightTemperature := 1, nightBrightness := 1/10,
    currentBrightness := 1, currentTemperature := 2/5 }

/-- The spec's rejected settings scenario: `sunset_temp=40, noon_temp=60`. -/
def badSettings : NewSettings :=
  { max_brightness := 100, min_brightness := 10, night_brightness := 10,
    night_temp := 100, sunset_temp := 40, noon_temp := 60 }

/-- An accepted settings payload: `sunset_temp=100, noon_temp=40`. -/
def goodSettings : NewSettings :=
  { max_brightness := 100, min_brightness := 10, night_brightness := 10,
    night_temp := 100, sunset_temp := 100, noon_temp := 40 }

/-! Helper lemmas -/

/-- Monotonicity of `round2`. -/
lemma round2_mono {x y : ℚ} (h : x ≤ y) : round2 x ≤ round2 y := by
  unfold round2 jsRound
  have hf : ⌊x * 100 + 1/2⌋ ≤ ⌊y * 100 + 1/2⌋ := Int.floor_le_floor (by linarith)
  have hc : ((⌊x * 100 + 1/2⌋ : ℤ) : ℚ) ≤ ((⌊y * 100 + 1/2⌋ : ℤ) : ℚ) := by exact_mod_cast hf
  exact div_le_div_of_nonneg_right hc (by norm_num) |>.trans_eq rfl

/-- Rounding fixes whole-percent values `k / 100`. -/
lemma round2_whole (k : ℤ) : round2 ((k : ℚ) / 100) = (k : ℚ) / 100 := by
  unfold round2 jsRound
  have h1 : ((k : ℚ) / 100) * 100 = (k : ℚ) := by
    field_simp
  rw [h1, add_comm, Int.floor_add_int]
  norm_num

/-- A guarded assignment `if (new ≠ old) { old := new }` leaves the field
holding the new value either way. -/
lemma update_if_changed (a b : ℚ) : (if b ≠ a then b else a) = b := by
  split_ifs with h
  · rfl
  · exact (not_not.mp h).symm

/-- In adaptive mode, `updateFromPercentage` always leaves the stored
values at the freshly computed rounded targets. -/
lemma updateFromPercentage_adaptive (s : ZoneState) (pct : ℚ) (h : s.mode = "adaptive") :
    (updateFromPercentage s pct).1 =
      { s with currentBrightness := adaptiveBrightness s pct,
               currentTemperature := adaptiveTemperature s pct } := by
  have h' : ¬ s.mode ≠ "adaptive" := by simp [h]
  simp only [updateFromPercentage, if_neg h']
  split_ifs <;> simp_all [not_not]

/-- Frame lemma: `updateFromPercentage` never touches the mode or the
configuration. -/
lemma updateFromPercentage_frame (s : ZoneState) (pct : ℚ) :
    (updateFromPercentage s pct).1.mode = s.mode ∧
    (updateFromPercentage s pct).1.sunsetTemp = s.sunsetTemp ∧
    (updateFromPercentage s pct).1.noonTemp = s.noonTemp ∧
    (updateFromPercentage s pct).1.minBrightness = s.minBrightness ∧
    (updateFromPercentage s pct).1.maxBrightness = s.maxBrightness ∧
    (updateFromPercentage s pct).1.nightTemperature = s.nightTemperature ∧
    (updateFromPercentage s pct).1.nightBrightness = s.nightBrightness := by
  simp only [updateFromPercentage]
  split_ifs <;> simp

/-- Frame lemma: `updateFromNightMode` never touches the mode or the
configuration. -/
lemma updateFromNightMode_frame (s : ZoneState) :
    (updateFromNightMode s).1.mode = s.mode ∧
    (updateFromNightMode s).1.sunsetTemp = s.sunsetTemp ∧
    (updateFromNightMode s).1.noonTemp = s.noonTemp ∧
    (updateFromNightMode s).1.minBrightness = s.minBrightness ∧
    (updateFromNightMode s).1.maxBrightness = s.maxBrightness ∧
    (updateFromNightMode s).1.nightTemperature = s.nightTemperature ∧
    (updateFromNightMode s).1.nightBrightness = s.nightBrightness := by
  simp only [updateFromNightMode]
  split_ifs <;> simp

/-- Frame lemma: `refreshZone` never touches the mode or the
configuration. -/
lemma refreshZone_frame (s : ZoneState) (pct : ℚ) :
    (refreshZone s pct).1.mode = s.mode ∧
    (refreshZone s pct).1.sunsetTemp = s.sunsetTemp ∧
    (refreshZone s pct).1.noonTemp = s.noonTemp ∧
    (refreshZone s pct).1.minBrightness = s.minBrightness ∧
    (refreshZone s pct).1.maxBrightness = s.maxBrightness ∧
    (refreshZone s pct).1.nightTemperature = s.nightTemperature ∧
    (refreshZone s pct).1.nightBrightness = s.nightBrightness := by
  simp only [refreshZone]
  split_ifs
  · exact updateFromPercentage_frame s pct
  · exact updateFromNightMode_frame s
  · simp

/-- Forcing manual mode: when the mode differs, `setMode "manual"` stores
and persists the mode and refreshes nothing. -/
lemma setMode_manual (s : ZoneState) (pct : ℚ) (h : s.mode ≠ "manual") :
    setMode s "manual" pct =
      ({ s with mode := "manual" }, [Effect.setCapStr "adaptive_mode" "manual"]) := by
  simp only [setMode, if_pos h]
  rw [if_neg (by simp)]

/-- When either axis of an override is provided and differing, the
override stores the provided raw values, forces manual mode, and fires
exactly one values-changed trigger carrying the stored values. -/
lemma override_changed (s : ZoneState) (b t pc : ℚ)
    (h : (0 ≤ b ∧ s.currentBrightness ≠ b) ∨ (0 ≤ t ∧ s.currentTemperature ≠ t)) :
    (overrideCurrentBrightnessTemperature s b t pc).1.mode = "manual" ∧
    (overrideCurrentBrightnessTemperature s b t pc).1.currentBrightness =
      (if 0 ≤ b ∧ s.currentBrightness ≠ b then b else s.currentBrightness) ∧
    (overrideCurrentBrightnessTemperature s b t pc).1.currentTemperature =
      (if 0 ≤ t ∧ s.currentTemperature ≠ t then t else s.currentTemperature) ∧
    notifyCount (overrideCurrentBrightnessTemperature s b t pc).2 = 1 ∧
    Effect.valuesChanged
        (if 0 ≤ b ∧ s.currentBrightness ≠ b then b else s.currentBrightness)
        (if 0 ≤ t ∧ s.currentTemperature ≠ t then t else s.currentTemperature) ∈
      (overrideCurrentBrightnessTemperature s b t pc).2 := by
  simp only [overrideCurrentBrightnessTemperature]
  rw [if_pos h]
  by_cases hm : s.mode = "manual"
  · rw [if_neg (by simp [hm])]
    simp [notifyCount, isValuesChanged, hm]
  · rw [if_pos (by simp [hm]), setMode_manual _ pc (by simp [hm])]
    simp [notifyCount, isValuesChanged]

/-- When no provided axis differs, the override changes nothing and fires
nothing. -/
lemma override_unchanged (s : ZoneState) (b t pc : ℚ)
    (h : ¬ ((0 ≤ b ∧ s.currentBrightness ≠ b) ∨ (0 ≤ t ∧ s.currentTemperature ≠ t))) :
    overrideCurrentBrightnessTemperature s b t pc = (s, []) := by
  simp only [overrideCurrentBrightnessTemperature]
  rw [if_neg h]
  push_neg at h
  rcases h with ⟨h1, h2⟩
  split_ifs <;> simp_all

/-! Claims -/

/-- Claim C1: In adaptive mode, `updateFromPercentage(pct)` sets
`currentBrightness` to
`round2(pct > 0 ? minBrightness + (maxBrightness - minBrightness) * pct : minBrightness)`
and `currentTemperature` to
`round2(pct > 0 ? noonTemperature + (sunsetTemperature - noonTemperature) * (1 - pct) : sunsetTemperature)`. -/
theorem C1_updateFromPercentage_formula (s : ZoneState) (pct : ℚ) (h : s.mode = "adaptive") :
    (updateFromPercentage s pct).1.currentBrightness =
      round2 (if 0 < pct then s.minBrightness + (s.maxBrightness - s.minBrightness) * pct
              else s.minBrightness) ∧
    (updateFromPercentage s pct).1.currentTemperature =
      round2 (if 0 < pct then s.noonTemp + (s.sunsetTemp - s.noonTemp) * (1 - pct)
              else s.sunsetTemp) := by
  rw [updateFromPercentage_adaptive s pct h]
  constructor
  · show adaptiveBrightness s pct = _
    unfold adaptiveBrightness
    apply congrArg round2
    split_ifs <;> ring
  · show adaptiveTemperature s pct = _
    unfold adaptiveTemperature
    apply congrArg round2
    split_ifs <;> ring

/-- Witness for claim C1: On the spec's concrete configuration
(min 0.10, max 1.00, noon 0.40, sunset 1.00, adaptive), percentages 0,
0.5 and 1 give brightness/temperature (0.10, 1.00), (0.55, 0.70) and
(1.00, 0.40). -/
theorem C1_updateFromPercentage_formula_witness :
    demoZone.mode = "adaptive" ∧
    (updateFromPercentage demoZone 0).1.currentBrightness = 1/10 ∧
    (updateFromPercentage demoZone 0).1.currentTemperature = 1 ∧
    (updateFromPercentage demoZone (1/2)).1.currentBrightness = 11/20 ∧
    (updateFromPercentage demoZone (1/2)).1.currentTemperature = 7/10 ∧
    (updateFromPercentage demoZone 1).1.currentBrightness = 1 ∧
    (updateFromPercentage demoZone 1).1.currentTemperature = 2/5 :=
  ⟨rfl,
   (C1_updateFromPercentage_formula demoZone 0 rfl).1.trans
     (by norm_num [demoZone, round2, jsRound]),
   (C1_updateFromPercentage_formula demoZone 0 rfl).2.trans
     (by norm_num [demoZone, round2, jsRound]),
   (C1_updateFromPercentage_formula demoZone (1/2) rfl).1.trans
     (by norm_num [demoZone, round2, jsRound]),
   (C1_updateFromPercentage_formula demoZone (1/2) rfl).2.trans
     (by norm_num [demoZone, round2, jsRound]),
   (C1_updateFromPercentage_formula demoZone 1 rfl).1.trans
     (by norm_num [demoZone, round2, jsRound]),
   (C1_updateFromPercentage_formula demoZone 1 rfl).2.trans
     (by norm_num [demoZone, round2, jsRound])⟩

/-- Claim C4: A settings update is rejected — error message returned, no
state change, no effects — exactly when the new sunset temperature is not
strictly greater than the new noon temperature; on acceptance all six
configuration fields are replaced by the new settings divided by 100, the
mode is untouched, and the call runs `refreshZone` on the replaced
configuration regardless of the mode. -/
theorem C4_onSettings_validation (s : ZoneState) (ns : NewSettings) (pct : ℚ) :
    (¬ ns.noon_temp < ns.sunset_temp →
      onSettings s ns pct = (s, [], some "temperature_error")) ∧
    (ns.noon_temp < ns.sunset_temp →
      (onSettings s ns pct).2.2 = none ∧
      (onSettings s ns pct).1.maxBrightness = ns.max_brightness / 100 ∧
      (onSettings s ns pct).1.minBrightness = ns.min_brightness / 100 ∧
      (onSettings s ns pct).1.noonTemp = ns.noon_temp / 100 ∧
      (onSettings s ns pct).1.sunsetTemp = ns.sunset_temp / 100 ∧
      (onSettings s ns pct).1.nightBrightness = ns.night_brightness / 100 ∧
      (onSettings s ns pct).1.nightTemperature = ns.night_temp / 100 ∧
      (onSettings s ns pct).1.mode = s.mode ∧
      ((onSettings s ns pct).1, (onSettings s ns pct).2.1) =
        refreshZone
          { s with
            maxBrightness := ns.max_brightness / 100,
            minBrightness := ns.min_brightness / 100,
            noonTemp := ns.noon_temp / 100,
            sunsetTemp := ns.sunset_temp / 100,
            nightBrightness := ns.night_brightness / 100,
            nightTemperature := ns.night_temp / 100 } pct) := by
  constructor
  · intro h
    simp only [onSettings]
    rw [if_pos h]
  · intro h
    simp only [onSettings]
    rw [if_neg (not_not_intro h)]
    obtain ⟨f1, f2, f3, f4, f5, f6, f7⟩ := refreshZone_frame
      { s with
        maxBrightness := ns.max_brightness / 100,
        minBrightness := ns.min_brightness / 100,
        noonTemp := ns.noon_temp / 100,
        sunsetTemp := ns.sunset_temp / 100,
        nightBrightness := ns.night_brightness / 100,
        nightTemperature := ns.night_temp / 100 } pct
    exact ⟨rfl, by rw [f5], by rw [f4], by rw [f3], by rw [f2], by rw [f7], by rw [f6],
      by rw [f1], rfl⟩

/-- Witness for claim C4: The spec's scenario `sunset_temp=40, noon_temp=60` is
rejected with `temperature_error` and no state change; the accepted
payload `sunset_temp=100, noon_temp=40` returns no message and stores
sunset temperature 1.00. -/
theorem C4_onSettings_validation_witness :
    (¬ badSettings.noon_temp < badSettings.sunset_temp ∧
     onSettings demoZone badSettings 0 = (demoZone, [], some "temperature_error")) ∧
    (goodSettings.noon_temp < goodSettings.sunset_temp ∧
     (onSettings demoZone goodSettings 0).2.2 = none ∧
     (onSettings demoZone goodSettings 0).1.sunsetTemp = 1) :=
  ⟨⟨by norm_num [badSettings],
    (C4_onSettings_validation demoZone badSettings 0).1 (by norm_num [badSettings])⟩,
   ⟨by norm_num [goodSettings],
    ((C4_onSettings_validation demoZone goodSettings 0).2 (by norm_num [goodSettings])).1,
    (((C4_onSettings_validation demoZone goodSettings 0).2
        (by norm_num [goodSettings])).2.2.2.2.1).trans (by norm_num [goodSettings])⟩⟩

/-- Claim C5: When the mode is not adaptive, `updateFromPercentage` returns
without changing any field, persisting anything or triggering any flow. -/
theorem C5_updateFromPercentage_guard (s : ZoneState) (pct : ℚ) (h : s.mode ≠ "adaptive") :
    updateFromPercentage s pct = (s, []) := by
  simp [updateFromPercentage, h]

/-- Witness for claim C5: A zone in manual mode ignores an incoming percentage. -/
theorem C5_updateFromPercentage_guard_witness :
    ({ demoZone with mode := "manual" } : ZoneState).mode ≠ "adaptive" ∧
    updateFromPercentage { demoZone with mode := "manual" } (1/2) =
      ({ demoZone with mode := "manual" }, []) :=
  ⟨by decide, C5_updateFromPercentage_guard _ (1/2) (by decide)⟩

/-- Counterexample for claim C6: The range claim fails for a configuration whose
bounds are not whole-percent values: with `minBrightness = maxBrightness
= 0.005` (and valid temperatures), the computed brightness at percentage 1
is `round2(0.005) = 0.01`, which exceeds `maxBrightness`. -/
theorem C6_counterexample_rounding_escapes_bounds :
    ({ demoZone with minBrightness := 1/200, maxBrightness := 1/200 }
        : ZoneState).minBrightness ≤
      ({ demoZone with minBrightness := 1/200, maxBrightness := 1/200 }
        : ZoneState).maxBrightness ∧
    ({ demoZone with minBrightness := 1/200, maxBrightness := 1/200 }
        : ZoneState).noonTemp <
      ({ demoZone with minBrightness := 1/200, maxBrightness := 1/200 }
        : ZoneState).sunsetTemp ∧
    ({ demoZone with minBrightness := 1/200, maxBrightness := 1/200 }
        : ZoneState).maxBrightness <
      adaptiveBrightness
        { demoZone with minBrightness := 1/200, maxBrightness := 1/200 } 1 := by
  norm_num [demoZone, adaptiveBrightness, round2, jsRound]

/-- Claim C6 as amended: With `minBrightness ≤ maxBrightness` and
`noonTemperature < sunsetTemperature`: the computed brightness is
monotonically non-decreasing on `(0,1]` and the computed temperature is
monotonically non-increasing on `[0,1]` for every configuration; when in
addition the brightness bounds are whole-percent values `k/100` (as
produced by loading integer-percentage settings), the brightness stays in
`[minBrightness, maxBrightness]`, and when the temperature targets are
whole-percent values, `temperature(0) = sunsetTemperature` and
`temperature(1) = noonTemperature`. -/
theorem C6_amended_monotone_and_bounded (s : ZoneState)
    (hminmax : s.minBrightness ≤ s.maxBrightness)
    (htemp : s.noonTemp < s.sunsetTemp) :
    (∀ p q : ℚ, 0 < p → p ≤ q → q ≤ 1 →
      adaptiveBrightness s p ≤ adaptiveBrightness s q) ∧
    (∀ p q : ℚ, 0 ≤ p → p ≤ q → q ≤ 1 →
      adaptiveTemperature s q ≤ adaptiveTemperature s p) ∧
    (∀ mB MB : ℤ, s.minBrightness = (mB : ℚ) / 100 → s.maxBrightness = (MB : ℚ) / 100 →
      ∀ p : ℚ, 0 < p → p ≤ 1 →
        s.minBrightness ≤ adaptiveBrightness s p ∧
        adaptiveBrightness s p ≤ s.maxBrightness) ∧
    (∀ st nt : ℤ, s.sunsetTemp = (st : ℚ) / 100 → s.noonTemp = (nt : ℚ) / 100 →
      adaptiveTemperature s 0 = s.sunsetTemp ∧ adaptiveTemperature s 1 = s.noonTemp) := by
  refine ⟨?_, ?_, ?_, ?_⟩
  · intro p q hp hpq hq1
    unfold adaptiveBrightness
    dsimp only
    rw [if_pos hp, if_pos (lt_of_lt_of_le hp hpq)]
    exact round2_mono (by nlinarith)
  · intro p q hp hpq hq1
    unfold adaptiveTemperature
    dsimp only
    rcases eq_or_lt_of_le hp with hp0 | hp0
    · subst hp0
      rcases eq_or_lt_of_le hpq with hq0 | hq0
      · subst hq0
        exact le_refl _
      · rw [if_pos hq0, if_neg (lt_irrefl 0)]
        exact round2_mono (by nlinarith)
    · rw [if_pos (lt_of_lt_of_le hp0 hpq), if_pos hp0]
      exact round2_mono (by nlinarith)
  · intro mB MB hmB hMB p hp hp1
    unfold adaptiveBrightness
    dsimp only
    rw [if_pos hp]
    constructor
    · have h1 : s.minBrightness ≤ (s.maxBrightness - s.minBrightness) * p + s.minBrightness := by
        nlinarith
      have h2 := round2_mono h1
      rwa [hmB, round2_whole, ← hmB] at h2
    · have h1 : (s.maxBrightness - s.minBrightness) * p + s.minBrightness ≤ s.maxBrightness := by
        nlinarith
      have h2 := round2_mono h1
      rwa [hMB, round2_whole, ← hMB] at h2
  · intro st nt hst hnt
    unfold adaptiveTemperature
    dsimp only
    constructor
    · rw [if_neg (lt_irrefl 0), hst, round2_whole]
    · rw [if_pos one_pos]
      have h1 : (s.sunsetTemp - s.noonTemp) * (1 - 1) + s.noonTemp = s.noonTemp := by ring
      rw [h1, hnt, round2_whole]

/-- Witness for claim C6 as amended: On the demo configuration (whole-percent
bounds 10%/100%, temperatures 40%/100%), brightness at 0.5 is inside the
bounds and the temperature endpoints are the configured targets. -/
theorem C6_amended_monotone_and_bounded_witness :
    demoZone.minBrightness ≤ demoZone.maxBrightness ∧
    demoZone.noonTemp < demoZone.sunsetTemp ∧
    (demoZone.minBrightness ≤ adaptiveBrightness demoZone (1/2) ∧
     adaptiveBrightness demoZone (1/2) ≤ demoZone.maxBrightness) ∧
    (adaptiveTemperature demoZone 0 = demoZone.sunsetTemp ∧
     adaptiveTemperature demoZone 1 = demoZone.noonTemp) :=
  ⟨by norm_num [demoZone], by norm_num [demoZone],
   (C6_amended_monotone_and_bounded demoZone (by norm_num [demoZone])
       (by norm_num [demoZone])).2.2.1 10 100
     (by norm_num [demoZone]) (by norm_num [demoZone]) (1/2) (by norm_num) (by norm_num),
   (C6_amended_monotone_and_bounded demoZone (by norm_num [demoZone])
       (by norm_num [demoZone])).2.2.2 100 40
     (by norm_num [demoZone]) (by norm_num [demoZone])⟩

/-- Claim C7: In adaptive mode, a second `updateFromPercentage` with the
same percentage changes nothing and triggers nothing. -/
theorem C7_updateFromPercentage_idempotent (s : ZoneState) (pct : ℚ) (h : s.mode = "adaptive") :
    updateFromPercentage (updateFromPercentage s pct).1 pct =
      ((updateFromPercentage s pct).1, []) := by
  have h1 := updateFromPercentage_adaptive s pct h
  set s1 := (updateFromPercentage s pct).1 with hs1
  have hmode : s1.mode = "adaptive" := by rw [h1]; exact h
  have hb : adaptiveBrightness s1 pct = s1.currentBrightness := by
    rw [h1]; simp [adaptiveBrightness]
  have ht : adaptiveTemperature s1 pct = s1.currentTemperature := by
    rw [h1]; simp [adaptiveTemperature]
  have hmode' : ¬ s1.mode ≠ "adaptive" := by simp [hmode]
  simp only [updateFromPercentage]
  rw [if_neg hmode']
  simp [hb, ht]

/-- Witness for claim C7: On the concrete configuration, the second call at
percentage 0.5 is a no-op with no effects. -/
theorem C7_updateFromPercentage_idempotent_witness :
    demoZone.mode = "adaptive" ∧
    updateFromPercentage (updateFromPercentage demoZone (1/2)).1 (1/2) =
      ((updateFromPercentage demoZone (1/2)).1, []) :=
  ⟨rfl, C7_updateFromPercentage_idempotent demoZone (1/2) rfl⟩

/-- Claim C9: Setting the already-active mode is a no-op: the state is
untouched and no effect (persist, refresh or flow trigger) happens. -/
theorem C9_setMode_idempotent (s : ZoneState) (pct : ℚ) :
    setMode s s.mode pct = (s, []) := by
  simp [setMode]

/-- Claim C10: `setMode` validates nothing: any string different from the
current mode is stored and persisted as the mode, and a zone refresh runs
exactly when the new mode is `"adaptive"` or `"night"`; any other string
causes no further action. -/
theorem C10_setMode_no_validation (s : ZoneState) (m : String) (pct : ℚ) (h : s.mode ≠ m) :
    (setMode s m pct).1.mode = m ∧
    (m ≠ "adaptive" ∧ m ≠ "night" →
      setMode s m pct = ({ s with mode := m }, [Effect.setCapStr "adaptive_mode" m])) ∧
    (m = "adaptive" ∨ m = "night" →
      setMode s m pct =
        ((refreshZone { s with mode := m } pct).1,
         Effect.setCapStr "adaptive_mode" m :: (refreshZone { s with mode := m } pct).2)) := by
  simp only [setMode, if_pos h]
  refine ⟨?_, ?_, ?_⟩
  · split_ifs with hr
    · exact (refreshZone_frame { s with mode := m } pct).1
    · rfl
  · intro ⟨ha, hn⟩
    rw [if_neg (by simp [ha, hn])]
  · intro hr
    rw [if_pos hr]

/-- Claim C8: Overriding only brightness (temperature unset, encoded `-1`)
with a value differing from the current brightness forces manual mode,
leaves the temperature untouched, and fires exactly one values-changed
trigger carrying the new brightness and the prior temperature. -/
theorem C8_override_brightness_only (s : ZoneState) (b pc : ℚ)
    (hb : 0 ≤ b) (hne : b ≠ s.currentBrightness) :
    (overrideCurrentBrightnessTemperature s b (-1) pc).1.mode = "manual" ∧
    (overrideCurrentBrightnessTemperature s b (-1) pc).1.currentBrightness = b ∧
    (overrideCurrentBrightnessTemperature s b (-1) pc).1.currentTemperature =
      s.currentTemperature ∧
    notifyCount (overrideCurrentBrightnessTemperature s b (-1) pc).2 = 1 ∧
    Effect.valuesChanged b s.currentTemperature ∈
      (overrideCurrentBrightnessTemperature s b (-1) pc).2 := by
  have hbC : (0 ≤ b ∧ s.currentBrightness ≠ b) := ⟨hb, Ne.symm hne⟩
  have htC : ¬ (0 ≤ (-1:ℚ) ∧ s.currentTemperature ≠ -1) := by norm_num
  obtain ⟨h1, h2, h3, h4, h5⟩ := override_changed s b (-1) pc (Or.inl hbC)
  rw [if_pos hbC] at h2 h5
  rw [if_neg htC] at h3 h5
  exact ⟨h1, h2, h3, h4, h5⟩

/-- Witness for claim C8: A brightness-only override to 0.5 on the demo zone
(brightness 1.0, temperature 0.4) yields manual mode, brightness 0.5,
temperature 0.4, and one notification with those values. -/
theorem C8_override_brightness_only_witness :
    (0:ℚ) ≤ 1/2 ∧ (1/2 : ℚ) ≠ demoZone.currentBrightness ∧
    ((overrideCurrentBrightnessTemperature demoZone (1/2) (-1) 0).1.mode = "manual" ∧
     (overrideCurrentBrightnessTemperature demoZone (1/2) (-1) 0).1.currentBrightness = 1/2 ∧
     (overrideCurrentBrightnessTemperature demoZone (1/2) (-1) 0).1.currentTemperature =
       demoZone.currentTemperature ∧
     notifyCount (overrideCurrentBrightnessTemperature demoZone (1/2) (-1) 0).2 = 1 ∧
     Effect.valuesChanged (1/2) demoZone.currentTemperature ∈
       (overrideCurrentBrightnessTemperature demoZone (1/2) (-1) 0).2) :=
  ⟨by norm_num, by norm_num [demoZone],
   C8_override_brightness_only demoZone (1/2) 0 (by norm_num) (by norm_num [demoZone])⟩

/-- Counterexample for claim C3: The override operation does not round: from
stored brightness 0.55, overriding with 0.549 (whose `round2` equals the
stored 0.55, so the claim predicts no update) updates the axis and stores
the raw 0.549, which is not `round2(0.549)`. -/
theorem C3_counterexample_override_stores_unrounded :
    round2 (549/1000) = ({ demoZone with mode := "manual", currentBrightness := 11/20 }
        : ZoneState).currentBrightness ∧
    (overrideCurrentBrightnessTemperature
        { demoZone with mode := "manual", currentBrightness := 11/20 }
        (549/1000) (-1) 0).1.currentBrightness = 549/1000 ∧
    ((549:ℚ)/1000) ≠ round2 (549/1000) := by
  refine ⟨by norm_num [round2, jsRound, demoZone], ?_, by norm_num [round2, jsRound]⟩
  norm_num [overrideCurrentBrightnessTemperature, demoZone]

/-- Claim C3 as amended: For each axis of the override: a provided (`≥ 0`)
value is stored exactly as given, with no rounding, and the stored value
changes if and only if the provided raw value differs from the current
one; an unset axis keeps its value. -/
theorem C3_amended_override_raw_values (s : ZoneState) (b t pc : ℚ) :
    ((overrideCurrentBrightnessTemperature s b t pc).1.currentBrightness ≠
        s.currentBrightness ↔ 0 ≤ b ∧ b ≠ s.currentBrightness) ∧
    (0 ≤ b → (overrideCurrentBrightnessTemperature s b t pc).1.currentBrightness = b) ∧
    ((overrideCurrentBrightnessTemperature s b t pc).1.currentTemperature ≠
        s.currentTemperature ↔ 0 ≤ t ∧ t ≠ s.currentTemperature) ∧
    (0 ≤ t → (overrideCurrentBrightnessTemperature s b t pc).1.currentTemperature = t) := by
  by_cases h : (0 ≤ b ∧ s.currentBrightness ≠ b) ∨ (0 ≤ t ∧ s.currentTemperature ≠ t)
  · obtain ⟨-, hcb, hct, -, -⟩ := override_changed s b t pc h
    rw [hcb, hct]
    refine ⟨?_, ?_, ?_, ?_⟩ <;> split_ifs <;> simp_all [ne_comm, not_not] <;> tauto
  · rw [override_unchanged s b t pc h]
    push_neg at h
    obtain ⟨h1, h2⟩ := h
    refine ⟨by simp_all [ne_comm], ?_, by simp_all [ne_comm], ?_⟩
    · intro hb0
      exact (h1 hb0).symm ▸ rfl
    · intro ht0
      exact (h2 ht0).symm ▸ rfl

/-- Witness for claim C3 as amended: The override at brightness 0.549 (temperature
unset) stores exactly 0.549. -/
theorem C3_amended_override_raw_values_witness :
    (overrideCurrentBrightnessTemperature
      { demoZone with mode := "manual", currentBrightness := 11/20 }
      (549/1000) (-1) 0).1.currentBrightness = 549/1000 :=
  (C3_amended_override_raw_values _ (549/1000) (-1) 0).2.1 (by norm_num)

/-- Counterexample for claim C2: A brightness override from stored 0.55 to
0.551 fires a values-changed notification although neither stored value
changed when compared post-rounding (`round2` of both old and new
brightness is 0.55, and the temperature is untouched). -/
theorem C2_counterexample_notification_without_rounded_change :
    notifyCount (overrideCurrentBrightnessTemperature
        { demoZone with mode := "manual", currentBrightness := 11/20 }
        (551/1000) (-1) 0).2 ≠ 0 ∧
    round2 (overrideCurrentBrightnessTemperature
        { demoZone with mode := "manual", currentBrightness := 11/20 }
        (551/1000) (-1) 0).1.currentBrightness = round2 (11/20) ∧
    round2 (overrideCurrentBrightnessTemperature
        { demoZone with mode := "manual", currentBrightness := 11/20 }
        (551/1000) (-1) 0).1.currentTemperature = round2 (2/5) := by
  norm_num [overrideCurrentBrightnessTemperature, demoZone, notifyCount,
    isValuesChanged, round2, jsRound]

/-- Claim C2 as amended: For `updateFromPercentage`, `updateFromNightMode`
and the override, a values-changed notification fires if and only if at
least one of the stored `currentBrightness`/`currentTemperature` actually
changed, where the change comparison is on the exact stored values (the
override and night paths compare and store unrounded values). -/
theorem C2_amended_notification_iff_changed (s : ZoneState) (pct b t pc : ℚ) :
    (notifyCount (updateFromPercentage s pct).2 ≠ 0 ↔
      ((updateFromPercentage s pct).1.currentBrightness ≠ s.currentBrightness ∨
       (updateFromPercentage s pct).1.currentTemperature ≠ s.currentTemperature)) ∧
    (notifyCount (updateFromNightMode s).2 ≠ 0 ↔
      ((updateFromNightMode s).1.currentBrightness ≠ s.currentBrightness ∨
       (updateFromNightMode s).1.currentTemperature ≠ s.currentTemperature)) ∧
    (notifyCount (overrideCurrentBrightnessTemperature s b t pc).2 ≠ 0 ↔
      ((overrideCurrentBrightnessTemperature s b t pc).1.currentBrightness ≠
         s.currentBrightness ∨
       (overrideCurrentBrightnessTemperature s b t pc).1.currentTemperature ≠
         s.currentTemperature)) := by
  refine ⟨?_, ?_, ?_⟩
  · by_cases hm : s.mode = "adaptive"
    · simp only [updateFromPercentage]
      rw [if_neg (by simp [hm])]
      split_ifs <;> simp_all [notifyCount, isValuesChanged]
    · simp [updateFromPercentage, hm, notifyCount]
  · simp only [updateFromNightMode]
    split_ifs with h
    · have h' := h.imp Ne.symm Ne.symm
      simp [notifyCount, isValuesChanged]
      tauto
    · simp [notifyCount]
  · by_cases h : (0 ≤ b ∧ s.currentBrightness ≠ b) ∨ (0 ≤ t ∧ s.currentTemperature ≠ t)
    · obtain ⟨-, hcb, hct, hcount, -⟩ := override_changed s b t pc h
      rw [hcb, hct, hcount]
      constructor
      · intro _
        rcases h with hb' | ht'
        · exact Or.inl (by rw [if_pos hb']; exact Ne.symm hb'.2)
        · exact Or.inr (by rw [if_pos ht']; exact Ne.symm ht'.2)
      · intro _
        norm_num
    · rw [override_unchanged s b t pc h]
      simp [notifyCount]

/-- Witness for claim C10: Setting the undocumented mode `"mystery"` stores and
persists it and does nothing else. -/
theorem C10_setMode_no_validation_witness :
    demoZone.mode ≠ "mystery" ∧
    setMode demoZone "mystery" 0 =
      ({ demoZone with mode := "mystery" }, [Effect.setCapStr "adaptive_mode" "mystery"]) :=
  ⟨by decide,
   (C10_setMode_no_validation demoZone "mystery" 0 (by decide)).2.1 (by decide)⟩

end Circadian
